import Mathlib

set_option maxHeartbeats 1600000

/-!
Shallow embedding of the qmlpanorama repository (src/src/photosphere.h and
src/src/photosphere.cpp): the QmlPhotoSphere item state with its property
setters and source loaders, the PhotoSphereRenderState snapshot with its
equality operator, the renderer's max-texture-size write-back, and the
Sphere3D / Cube3D mesh generators.

Numeric model: qreal (double) values are embedded as exact rationals tagged
with NaN and the two infinities.  The setters only use IEEE comparisons,
fmod, one addition by 360 and clamping, all of which are modelled exactly on
rationals; IEEE comparison semantics (NaN incomparable and unequal to
everything, including itself) are reproduced faithfully.
-/

/-- A double value: an exact rational, NaN, or an infinity. -/
inductive Qreal
  | finite (q : ℚ)
  | nan
  | posInf
  | negInf
  deriving DecidableEq

/-- qIsFinite from QtNumeric: true exactly on finite values. -/
def qIsFinite : Qreal → Bool
  | .finite _ => true
  | _ => false

/-- IEEE equality (operator== on doubles): NaN is unequal to everything. -/
def qeq : Qreal → Qreal → Bool
  | .finite a, .finite b => decide (a = b)
  | .posInf, .posInf => true
  | .negInf, .negInf => true
  | _, _ => false

/-- IEEE strict less-than on doubles: NaN is incomparable. -/
def qlt : Qreal → Qreal → Bool
  | .nan, _ => false
  | _, .nan => false
  | .negInf, .negInf => false
  | .negInf, _ => true
  | _, .negInf => false
  | .posInf, _ => false
  | _, .posInf => true
  | .finite a, .finite b => decide (a < b)

/-- IEEE addition restricted to the cases the setters can reach
(finite + finite; the other cases follow IEEE). -/
def qAdd : Qreal → Qreal → Qreal
  | .finite a, .finite b => .finite (a + b)
  | .nan, _ => .nan
  | _, .nan => .nan
  | .posInf, .negInf => .nan
  | .negInf, .posInf => .nan
  | .posInf, _ => .posInf
  | _, .posInf => .posInf
  | .negInf, _ => .negInf
  | _, .negInf => .negInf

/-- Truncation toward zero, as used by C's fmod. -/
def truncQ (x : ℚ) : ℤ := if 0 ≤ x then ⌊x⌋ else ⌈x⌉

/-- C std::fmod on exact rationals: x - y * trunc(x / y). -/
def cFmod (x y : ℚ) : ℚ := x - y * truncQ (x / y)

/-- std::fmod lifted to the double model.  Only the finite/finite case with a
nonzero second argument is reachable in setAzimuth (the argument is guarded by
qIsFinite and the modulus is the constant 360). -/
def qFmod : Qreal → Qreal → Qreal
  | .finite a, .finite b => if b = 0 then .nan else .finite (cFmod a b)
  | _, _ => .nan

/-- Qt qMin on doubles: (a < b) ? a : b. -/
def qMinQt (a b : Qreal) : Qreal := if qlt a b then a else b

/-- Qt qMax on doubles: (a < b) ? b : a. -/
def qMaxQt (a b : Qreal) : Qreal := if qlt a b then b else a

/-- Qt qBound(min, val, max) = qMax(min, qMin(max, val)). -/
def qBoundQt (lo x hi : Qreal) : Qreal := qMaxQt lo (qMinQt hi x)

/-- Qt qMin on int. -/
def qMinInt (a b : Int) : Int := if a < b then a else b

/-- QByteArray: implicitly shared byte buffer.  dataId models the shared data
pointer (two arrays obtained by copy-assignment share it; a freshly allocated
buffer has a different one); bytes is the content. -/
structure QByteArray where
  dataId : Nat
  bytes : List Nat
  deriving DecidableEq

/-- Default-constructed / cleared QByteArray (the shared null buffer). -/
def QByteArray.emptyBA : QByteArray := ⟨0, []⟩

/-- QByteArray::isSharedWith: true iff the two arrays share storage. -/
def isSharedWith (a b : QByteArray) : Bool := decide (a.dataId = b.dataId)

/-- enum CubeFace from photosphere.h. -/
inductive CubeFace
  | PX
  | PY
  | PZ
  | MX
  | MY
  | MZ
  | InvalidFace
  deriving DecidableEq

/-- Numeric value of the CubeFace enumerators (PX = 0 .. MZ = 5). -/
def faceIdx : CubeFace → Nat
  | .PX => 0
  | .PY => 1
  | .PZ => 2
  | .MX => 3
  | .MY => 4
  | .MZ => 5
  | .InvalidFace => 6

/-- enum RendererType from photosphere.h. -/
inductive RendererType
  | CubeRenderer
  | SphereRenderer
  deriving DecidableEq

/-- QVariant as it appears as a value of the source cube-map dictionary: a
string (url) or some other, non-string-convertible payload. -/
inductive QVariant
  | vString (s : String)
  | vOther
  deriving DecidableEq

/-- QVariant::canConvert to QString. -/
def canConvertString : QVariant → Bool
  | .vString _ => true
  | .vOther => false

/-- QVariant::value of QString (empty for non-convertible payloads). -/
def variantToString : QVariant → String
  | .vString s => s
  | .vOther => ""

/-- QVariantMap: key-sorted association list from keys to variants (QMap
keeps keys sorted, so equal maps have equal representations). -/
abbrev VariantMap := List (String × QVariant)

/-- QMap::contains. -/
def containsKey (m : VariantMap) (k : String) : Bool := (m.lookup k).isSome

/-- QMap::value with a default-constructed (invalid) variant. -/
def valueOf (m : VariantMap) (k : String) : QVariant := (m.lookup k).getD .vOther

/-- A decoded QImage: null flag and pixel dimensions. -/
structure QImage where
  isNull : Bool
  width : Nat
  height : Nat
  deriving DecidableEq

/-- External collaborators: url validity (QUrl::isValid), the blocking fetch
(fetchUrl) and the decoder (QImage::loadFromData, none on failure). -/
structure Oracles where
  urlValid : String → Bool
  fetchUrl : String → QByteArray
  loadImage : QByteArray → Option QImage

/-- The QmlPhotoSphere item state (fields of the class in photosphere.h). -/
structure QmlPhotoSphere where
  m_azimuth : Qreal
  m_elevation : Qreal
  m_fieldOfView : Qreal
  m_recreateRenderer : Bool
  m_nodeDirty : Bool
  m_maximumTextureSize : Int
  m_glMaxTexSize : Int
  m_image : QByteArray
  m_imageUrl : String
  m_cubeMap : List (CubeFace × QByteArray)
  m_cubeMapUrls : VariantMap
  m_rendererType : RendererType
  deriving DecidableEq

/-- The state of a freshly constructed QmlPhotoSphere (initializers in
photosphere.h). -/
def initialSphere : QmlPhotoSphere where
  m_azimuth := .finite 0
  m_elevation := .finite 0
  m_fieldOfView := .finite 90
  m_recreateRenderer := false
  m_nodeDirty := false
  m_maximumTextureSize := 65536
  m_glMaxTexSize := -1
  m_image := QByteArray.emptyBA
  m_imageUrl := ""
  m_cubeMap := []
  m_cubeMapUrls := []
  m_rendererType := .CubeRenderer

/-- The signals of QmlPhotoSphere. -/
inductive Signal
  | azimuthChanged (v : Qreal)
  | elevationChanged (v : Qreal)
  | fieldOfViewChanged (v : Qreal)
  | sourceChanged
  | maximumTextureSizeChanged
  deriving DecidableEq

/-- An emitted signal together with the item state at the moment of emission
(what a directly connected handler observes). -/
abbrev Emission := Signal × QmlPhotoSphere

/-- QmlPhotoSphere::updateSphere: marks the node dirty and requests a repaint
(polish/update are host calls with no item-visible state). -/
def updateSphere (st : QmlPhotoSphere) : QmlPhotoSphere := { st with m_nodeDirty := true }

/-- QmlPhotoSphere::setAzimuth. -/
def setAzimuth (azimuth : Qreal) (st : QmlPhotoSphere) : QmlPhotoSphere × List Emission :=
  if qIsFinite azimuth = false then (st, [])
  else
    let azimuth := qFmod azimuth (.finite 360)
    let azimuth := if qlt azimuth (.finite 0) then qAdd azimuth (.finite 360) else azimuth
    if qeq azimuth st.m_azimuth then (st, [])
    else
      let st1 := updateSphere { st with m_azimuth := azimuth }
      (st1, [(.azimuthChanged azimuth, st1)])

/-- QmlPhotoSphere::setElevation. -/
def setElevation (elevation : Qreal) (st : QmlPhotoSphere) : QmlPhotoSphere × List Emission :=
  if qeq elevation st.m_elevation || qIsFinite elevation = false then (st, [])
  else
    let elevation := qBoundQt (.finite (-90)) elevation (.finite 90)
    let st1 := updateSphere { st with m_elevation := elevation }
    (st1, [(.elevationChanged elevation, st1)])

/-- QmlPhotoSphere::setFieldOfView.  Note: unlike the two other angle setters
there is no qIsFinite guard in the source. -/
def setFieldOfView (fov : Qreal) (st : QmlPhotoSphere) : QmlPhotoSphere × List Emission :=
  if qeq fov st.m_fieldOfView || qlt fov (.finite 3) || qlt (.finite 150) fov then (st, [])
  else
    let st1 := updateSphere { st with m_fieldOfView := fov }
    (st1, [(.fieldOfViewChanged fov, st1)])

/-- QmlPhotoSphere::maximumTextureSize (the property getter):
qMin(m_maximumTextureSize, int(m_glMaxTexSize)). -/
def maximumTextureSize (st : QmlPhotoSphere) : Int :=
  qMinInt st.m_maximumTextureSize st.m_glMaxTexSize

/-- QmlPhotoSphere::setMaximumTextureSize. -/
def setMaximumTextureSize (maxTexSize : Int) (st : QmlPhotoSphere) :
    QmlPhotoSphere × List Emission :=
  if maxTexSize = st.m_maximumTextureSize then (st, [])
  else
    let oldSz := maximumTextureSize st
    let st1 := { st with m_maximumTextureSize := maxTexSize }
    let newSz := maximumTextureSize st1
    if oldSz = newSz then (st1, [])
    else
      let st2 := updateSphere st1
      (st2, [(.maximumTextureSizeChanged, st2)])

/-- The two shapes a read of the source property can produce. -/
inductive SourceValue
  | str (s : String)
  | map (m : VariantMap)
  deriving DecidableEq

/-- QmlPhotoSphere::source (the property getter): the cube-map url dictionary
when one is stored, the single-image url otherwise. -/
def QmlPhotoSphere.source (st : QmlPhotoSphere) : SourceValue :=
  if st.m_cubeMapUrls.isEmpty then .str st.m_imageUrl else .map st.m_cubeMapUrls

/-- QmlPhotoSphere::loadFromUrl.  Returns the new state, the emissions (with
the state at emission time) and the boolean result. -/
def loadFromUrl (o : Oracles) (url : String) (st : QmlPhotoSphere) :
    QmlPhotoSphere × List Emission × Bool :=
  if url = "" then (st, [], false)
  else if url = st.m_imageUrl then (st, [], true)
  else if o.urlValid url = false then (st, [], false)
  else
    let data := o.fetchUrl url
    match o.loadImage data with
    | none => (st, [], false)
    | some image =>
      if image.isNull || image.width == 0 || image.height == 0 then (st, [], false)
      else
        let st1 := updateSphere { st with m_imageUrl := url, m_image := data }
        (st1, [(.sourceChanged, st1)], true)

/-- The required cube-map keys, in the iteration order of the loader. -/
def requiredKeys : List String :=
  ["PositiveX", "PositiveY", "PositiveZ", "NegativeX", "NegativeY", "NegativeZ"]

/-- The nameToCubeFace map of photosphere.cpp (QMap::value defaults to
CubeFace(0) = PX for unknown keys, which the loader never queries). -/
def nameToCubeFace : String → CubeFace
  | "PositiveZ" => .PZ
  | "PositiveX" => .PX
  | "PositiveY" => .PY
  | "NegativeZ" => .MZ
  | "NegativeY" => .MY
  | "NegativeX" => .MX
  | _ => .PX

/-- QMap insertion for the face-to-bytes map, keeping keys sorted. -/
def insertFace (f : CubeFace) (b : QByteArray) :
    List (CubeFace × QByteArray) → List (CubeFace × QByteArray)
  | [] => [(f, b)]
  | (g, c) :: rest =>
    if faceIdx f < faceIdx g then (f, b) :: (g, c) :: rest
    else if faceIdx f = faceIdx g then (f, b) :: rest
    else (g, c) :: insertFace f b rest

/-- First validation loop of loadFromCubeMap: every required key must be
present and its value convertible to a string (returns at the first
violation, like the source loop). -/
def checkKeys (m : VariantMap) : List String → Bool
  | [] => true
  | k :: ks =>
    if containsKey m k = false then false
    else if canConvertString (valueOf m k) = false then false
    else checkKeys m ks

/-- Second validation loop of loadFromCubeMap: each of the six urls must be
valid. -/
def checkUrls (o : Oracles) (m : VariantMap) : List String → Bool
  | [] => true
  | k :: ks =>
    if o.urlValid (variantToString (valueOf m k)) = false then false
    else checkUrls o m ks

/-- Fetch loop of loadFromCubeMap: fetch and decode each face in turn into a
local map; the first failure aborts the whole call (all-or-nothing). -/
def fetchFaces (o : Oracles) (m : VariantMap) :
    List String → List (CubeFace × QByteArray) → Option (List (CubeFace × QByteArray))
  | [], acc => some acc
  | k :: ks, acc =>
    let data := o.fetchUrl (variantToString (valueOf m k))
    match o.loadImage data with
    | none => none
    | some image =>
      if image.isNull || image.width == 0 || image.height == 0 then none
      else fetchFaces o m ks (insertFace (nameToCubeFace k) data acc)

/-- QmlPhotoSphere::loadFromCubeMap.  The Q_ASSERT on a missing key is
compiled out in release builds; the call returns false. -/
def loadFromCubeMap (o : Oracles) (cubeMap : VariantMap) (st : QmlPhotoSphere) :
    QmlPhotoSphere × List Emission × Bool :=
  if cubeMap.isEmpty then (st, [], false)
  else if st.m_cubeMapUrls = cubeMap then (st, [], true)
  else if checkKeys cubeMap requiredKeys = false then (st, [], false)
  else if checkUrls o cubeMap requiredKeys = false then (st, [], false)
  else
    match fetchFaces o cubeMap requiredKeys [] with
    | none => (st, [], false)
    | some cubeMapImages =>
      let st1 := updateSphere { st with m_cubeMap := cubeMapImages, m_cubeMapUrls := cubeMap }
      (st1, [(.sourceChanged, st1)], true)

/-- The dispatch shapes of the variant handed to setSource. -/
inductive SourceArg
  | str (s : String)
  | map (m : VariantMap)
  | other

/-- QmlPhotoSphere::setSource. -/
def setSource (o : Oracles) (src : SourceArg) (st : QmlPhotoSphere) :
    QmlPhotoSphere × List Emission :=
  match src with
  | .str url =>
    match loadFromUrl o url st with
    | (st1, ems, true) =>
      let st2 := { st1 with
        m_recreateRenderer :=
          if st1.m_rendererType ≠ RendererType.SphereRenderer then true
          else st1.m_recreateRenderer,
        m_rendererType := RendererType.SphereRenderer,
        m_cubeMap := [],
        m_cubeMapUrls := ([] : VariantMap) }
      (st2, ems)
    | (st1, ems, false) => (st1, ems)
  | .map cubeMap =>
    match loadFromCubeMap o cubeMap st with
    | (st1, ems, true) =>
      let st2 := { st1 with
        m_recreateRenderer :=
          if st1.m_rendererType ≠ RendererType.CubeRenderer then true
          else st1.m_recreateRenderer,
        m_rendererType := RendererType.CubeRenderer,
        m_image := QByteArray.emptyBA,
        m_imageUrl := "" }
      (st2, ems)
    | (st1, ems, false) => (st1, ems)
  | .other => (st, [])

/-- The write-back block of PhotoSphereRendererBase::updateState (lines
381-389): after the renderer has queried the device limit, it is copied into
the item, and a maximumTextureSizeChanged emission is queued when the
effective cap changed.  The argument is the renderer's m_glMaxTexSize. -/
def updateStateWriteBack (rendererGlMaxTexSize : Int) (itm : QmlPhotoSphere) :
    QmlPhotoSphere × Bool :=
  if itm.m_glMaxTexSize ≠ rendererGlMaxTexSize then
    let oldValue := qMinInt itm.m_glMaxTexSize itm.m_maximumTextureSize
    let itm1 := { itm with m_glMaxTexSize := rendererGlMaxTexSize }
    let newValue := qMinInt itm1.m_glMaxTexSize itm1.m_maximumTextureSize
    (itm1, decide (oldValue ≠ newValue))
  else (itm, false)

/-! ### Arithmetic facts about cFmod -/

lemma cFmod_nonneg_eq (x : ℚ) (hx : 0 ≤ x) : cFmod x 360 = 360 * Int.fract (x / 360) := by
  have hq : (0:ℚ) ≤ x / 360 := div_nonneg hx (by norm_num)
  have hfr : Int.fract (x / 360) = x / 360 - ⌊x / 360⌋ := (Int.self_sub_floor _).symm
  unfold cFmod truncQ
  rw [if_pos hq, hfr]
  ring

lemma cFmod_neg_eq (x : ℚ) (hx : x < 0) : cFmod x 360 = -(360 * Int.fract (-(x / 360))) := by
  have hq : ¬ (0:ℚ) ≤ x / 360 := by
    rw [not_le]
    exact div_neg_of_neg_of_pos hx (by norm_num)
  have hceil : (⌈x / 360⌉ : ℤ) = -⌊-(x / 360)⌋ := by
    conv_lhs => rw [show x / 360 = -(-(x / 360)) by ring]
    exact Int.ceil_neg
  have hfr : Int.fract (-(x / 360)) = -(x / 360) - ⌊-(x / 360)⌋ := (Int.self_sub_floor _).symm
  unfold cFmod truncQ
  rw [if_neg hq, hceil, hfr]
  push_cast
  ring

lemma cFmod360_mem (x : ℚ) :
    (0 ≤ x → 0 ≤ cFmod x 360 ∧ cFmod x 360 < 360)
    ∧ (x < 0 → -360 < cFmod x 360 ∧ cFmod x 360 ≤ 0) := by
  constructor
  · intro hx
    rw [cFmod_nonneg_eq x hx]
    have h1 := Int.fract_nonneg (x / 360)
    have h2 := Int.fract_lt_one (x / 360)
    constructor <;> nlinarith
  · intro hx
    rw [cFmod_neg_eq x hx]
    have h1 := Int.fract_nonneg (-(x / 360))
    have h2 := Int.fract_lt_one (-(x / 360))
    constructor <;> nlinarith

lemma cFmod360_lt (x : ℚ) : -360 < cFmod x 360 ∧ cFmod x 360 < 360 := by
  rcases le_or_lt 0 x with h | h
  · have := (cFmod360_mem x).1 h
    exact ⟨by linarith [this.1], this.2⟩
  · have := (cFmod360_mem x).2 h
    exact ⟨this.1, by linarith [this.2]⟩

/-- The wrap-forward of the setter agrees with the spec formula
((a mod 360) + 360) mod 360 (with C fmod as the mod). -/
lemma azimuthNorm_eq (a : ℚ) :
    cFmod (cFmod a 360 + 360) 360
      = (if cFmod a 360 < 0 then cFmod a 360 + 360 else cFmod a 360) := by
  have hb := cFmod360_lt a
  have hpos : (0:ℚ) ≤ cFmod a 360 + 360 := by linarith [hb.1]
  rw [cFmod_nonneg_eq _ hpos]
  by_cases hneg : cFmod a 360 < 0
  · rw [if_pos hneg]
    have h1 : (cFmod a 360 + 360) / 360 < 1 := by
      rw [div_lt_one (by norm_num : (0:ℚ) < 360)]
      linarith
    rw [Int.fract_eq_self.2 ⟨div_nonneg hpos (by norm_num), h1⟩]
    ring
  · rw [if_neg hneg]
    push_neg at hneg
    have harg : (cFmod a 360 + 360) / 360 = cFmod a 360 / 360 + ((1:ℤ):ℚ) := by
      push_cast
      ring
    rw [harg, Int.fract_add_int]
    have h1 : cFmod a 360 / 360 < 1 := by
      rw [div_lt_one (by norm_num : (0:ℚ) < 360)]
      exact hb.2
    rw [Int.fract_eq_self.2 ⟨div_nonneg hneg (by norm_num), h1⟩]
    ring

lemma azimuthNorm_bounds (a : ℚ) :
    0 ≤ cFmod (cFmod a 360 + 360) 360 ∧ cFmod (cFmod a 360 + 360) 360 < 360 := by
  rw [azimuthNorm_eq a]
  have hb := cFmod360_lt a
  by_cases hneg : cFmod a 360 < 0
  · rw [if_pos hneg]
    constructor <;> linarith [hb.1]
  · rw [if_neg hneg]
    push_neg at hneg
    exact ⟨hneg, hb.2⟩

/-! ### Small facts about the double model -/

lemma qeq_finite_iff (q : ℚ) (x : Qreal) : qeq (.finite q) x = true ↔ x = .finite q := by
  cases x <;> simp [qeq] <;> exact comm

lemma qMinQt_finite (a b : ℚ) : qMinQt (.finite a) (.finite b) = .finite (min a b) := by
  unfold qMinQt qlt
  rcases lt_trichotomy a b with h | h | h
  · simp [h, min_eq_left h.le]
  · subst h
    simp
  · simp [h.not_lt, min_eq_right h.le]

lemma qMaxQt_finite (a b : ℚ) : qMaxQt (.finite a) (.finite b) = .finite (max a b) := by
  unfold qMaxQt qlt
  rcases lt_trichotomy a b with h | h | h
  · simp [h, max_eq_right h.le]
  · subst h
    simp
  · simp [h.not_lt, max_eq_left h.le]

lemma qBoundQt_finite (lo x hi : ℚ) :
    qBoundQt (.finite lo) (.finite x) (.finite hi) = .finite (max lo (min hi x)) := by
  unfold qBoundQt
  rw [qMinQt_finite, qMaxQt_finite]

/-! ### Claims C1 - C3: the angle setters -/

/-- C1 (code bug exhibit): setFieldOfView has no finiteness guard, so NaN
passes the `fov == m_fieldOfView || fov < 3.0 || fov > 150.0` check (all three
IEEE comparisons are false for NaN), is stored as the field of view of a fresh
item and fires a fieldOfViewChanged notification, contradicting the claim that
non-finite inputs are silent no-ops and that the stored value stays finite. -/
theorem c1_fieldOfView_nan_stored :
    qIsFinite Qreal.nan = false
    ∧ (setFieldOfView Qreal.nan initialSphere).1.m_fieldOfView = Qreal.nan
    ∧ (setFieldOfView Qreal.nan initialSphere).2
        = [(Signal.fieldOfViewChanged Qreal.nan, (setFieldOfView Qreal.nan initialSphere).1)] := by
  decide

/-- Helper: setFieldOfView behaves as claimed on every non-NaN input.  The
rest of C1 (rejection of the infinities and of out-of-range or equal finite
values, single notification otherwise) does hold. -/
theorem setFieldOfView_nonNan (f : ℚ) (st : QmlPhotoSphere) :
    (setFieldOfView Qreal.posInf st = (st, []))
    ∧ (setFieldOfView Qreal.negInf st = (st, []))
    ∧ (f < 3 → setFieldOfView (.finite f) st = (st, []))
    ∧ (150 < f → setFieldOfView (.finite f) st = (st, []))
    ∧ (st.m_fieldOfView = .finite f → setFieldOfView (.finite f) st = (st, []))
    ∧ (3 ≤ f → f ≤ 150 → st.m_fieldOfView ≠ .finite f →
        setFieldOfView (.finite f) st
          = (updateSphere { st with m_fieldOfView := .finite f },
             [(Signal.fieldOfViewChanged (.finite f),
               updateSphere { st with m_fieldOfView := .finite f })])) := by
  refine ⟨?_, ?_, ?_, ?_, ?_, ?_⟩
  · cases h : st.m_fieldOfView <;> simp [setFieldOfView, qeq, qlt, h]
  · cases h : st.m_fieldOfView <;> simp [setFieldOfView, qeq, qlt, h]
  · intro hf
    simp [setFieldOfView, qlt, hf]
  · intro hf
    simp [setFieldOfView, qlt, hf]
  · intro h
    simp [setFieldOfView, qeq, h]
  · intro h3 h150 hne
    have hq : qeq (.finite f) st.m_fieldOfView = false := by
      cases h : st.m_fieldOfView <;> simp_all [qeq]
      exact fun he => hne (by rw [he])
    simp [setFieldOfView, hq, qlt, not_lt.2 h3, not_lt.2 h150]

/-- C2 counterexample: with stored elevation 90, the input 100 clamps to 90
(equal to the stored value), yet setElevation still fires an elevationChanged
notification, so the call is not the no-op the claim demands. -/
theorem c2_counterexample :
    max (-90:ℚ) (min 90 100) = 90
    ∧ (setElevation (Qreal.finite 90) initialSphere).1.m_elevation = Qreal.finite 90
    ∧ (setElevation (Qreal.finite 100)
        (setElevation (Qreal.finite 90) initialSphere).1).2 ≠ [] := by
  refine ⟨by norm_num, ?_, ?_⟩ <;> decide

/-- C2 (amended): for finite e the stored elevation becomes
clamp(e, -90, 90); non-finite inputs leave the state untouched with no
notification; the call is a no-op when e equals the stored elevation; but
when e merely clamps to the stored value while differing from it, the setter
still updates (to the same value) and fires a notification. -/
theorem c2_setElevation_amended (e q : ℚ) (st : QmlPhotoSphere)
    (hst : st.m_elevation = Qreal.finite q) (hlo : -90 ≤ q) (hhi : q ≤ 90) :
    ((setElevation (Qreal.finite e) st).1.m_elevation
        = Qreal.finite (max (-90) (min 90 e)))
    ∧ (∀ x : Qreal, qIsFinite x = false → setElevation x st = (st, []))
    ∧ (e = q → setElevation (Qreal.finite e) st = (st, []))
    ∧ (e ≠ q →
        setElevation (Qreal.finite e) st
          = (updateSphere { st with m_elevation := Qreal.finite (max (-90) (min 90 e)) },
             [(Signal.elevationChanged (Qreal.finite (max (-90) (min 90 e))),
               updateSphere { st with m_elevation := Qreal.finite (max (-90) (min 90 e)) })])) := by
  have hfull : ∀ h : e ≠ q,
      setElevation (Qreal.finite e) st
        = (updateSphere { st with m_elevation := Qreal.finite (max (-90) (min 90 e)) },
           [(Signal.elevationChanged (Qreal.finite (max (-90) (min 90 e))),
             updateSphere { st with m_elevation := Qreal.finite (max (-90) (min 90 e)) })]) := by
    intro hne
    have hq : qeq (Qreal.finite e) st.m_elevation = false := by
      rw [hst]
      simpa [qeq] using hne
    simp [setElevation, hq, qIsFinite, qBoundQt_finite]
  refine ⟨?_, ?_, ?_, hfull⟩
  · by_cases he : e = q
    · subst he
      have h1 : setElevation (Qreal.finite e) st = (st, []) := by
        simp [setElevation, qeq, hst]
      rw [h1, hst, min_eq_right hhi, max_eq_right hlo]
    · rw [hfull he]
      rfl
  · intro x hx
    simp [setElevation, hx]
  · intro he
    subst he
    simp [setElevation, qeq, hst]

/-- C2 witness: the amended theorem applied at e = 100 over the fresh item
(stored elevation 0): the stored value becomes clamp(100) = 90. -/
theorem c2_setElevation_amended_witness :
    (setElevation (Qreal.finite 100) initialSphere).1.m_elevation
      = Qreal.finite (max (-90) (min 90 (100:ℚ))) :=
  (c2_setElevation_amended 100 0 initialSphere rfl (by norm_num) (by norm_num)).1

/-- C3: for every finite a, setAzimuth stores exactly the claim formula
((a fmod 360) + 360) fmod 360, which lies in [0, 360); non-finite inputs
leave the state untouched with no notification; and when the normalized value
equals the stored azimuth the call is a complete no-op. -/
theorem c3_setAzimuth_normalizes (a : ℚ) (st : QmlPhotoSphere) :
    ((setAzimuth (Qreal.finite a) st).1.m_azimuth
        = Qreal.finite (cFmod (cFmod a 360 + 360) 360))
    ∧ 0 ≤ cFmod (cFmod a 360 + 360) 360
    ∧ cFmod (cFmod a 360 + 360) 360 < 360
    ∧ (∀ x : Qreal, qIsFinite x = false → setAzimuth x st = (st, []))
    ∧ (st.m_azimuth = Qreal.finite (cFmod (cFmod a 360 + 360) 360) →
        setAzimuth (Qreal.finite a) st = (st, [])) := by
  have hqf : qFmod (Qreal.finite a) (Qreal.finite 360) = Qreal.finite (cFmod a 360) := by
    unfold qFmod
    norm_num
  have hred : (if qlt (Qreal.finite (cFmod a 360)) (Qreal.finite 0)
                then qAdd (Qreal.finite (cFmod a 360)) (Qreal.finite 360)
                else Qreal.finite (cFmod a 360))
              = Qreal.finite (cFmod (cFmod a 360 + 360) 360) := by
    rw [azimuthNorm_eq a]
    by_cases h : cFmod a 360 < 0
    · simp [qlt, qAdd, h]
    · simp [qlt, qAdd, h]
  have hsa : setAzimuth (Qreal.finite a) st
      = (if qeq (Qreal.finite (cFmod (cFmod a 360 + 360) 360)) st.m_azimuth then (st, [])
         else
           (updateSphere { st with m_azimuth := Qreal.finite (cFmod (cFmod a 360 + 360) 360) },
            [(Signal.azimuthChanged (Qreal.finite (cFmod (cFmod a 360 + 360) 360)),
              updateSphere
                { st with m_azimuth := Qreal.finite (cFmod (cFmod a 360 + 360) 360) })])) := by
    unfold setAzimuth
    rw [hqf]
    simp only [qIsFinite, Bool.true_eq_false, if_false, hred]
  refine ⟨?_, (azimuthNorm_bounds a).1, (azimuthNorm_bounds a).2, ?_, ?_⟩
  · rw [hsa]
    by_cases h : qeq (Qreal.finite (cFmod (cFmod a 360 + 360) 360)) st.m_azimuth = true
    · rw [if_pos h]
      exact (qeq_finite_iff _ _).1 h
    · rw [if_neg h]
      rfl
  · intro x hx
    simp [setAzimuth, hx]
  · intro h
    rw [hsa, if_pos (by rw [h]; simp [qeq])]

/-- C3 witness: setAzimuth(-30) on a fresh item stores 330 = the claim
formula at -30; NaN is a no-op; setAzimuth(0) with stored azimuth 0 is a
no-op. -/
theorem c3_setAzimuth_normalizes_witness :
    (setAzimuth (Qreal.finite (-30)) initialSphere).1.m_azimuth = Qreal.finite 330
    ∧ setAzimuth Qreal.nan initialSphere = (initialSphere, [])
    ∧ setAzimuth (Qreal.finite 0) initialSphere = (initialSphere, []) := by
  have h330 : cFmod (cFmod (-30) 360 + 360) 360 = 330 := by
    have h1 : cFmod (-30) 360 = -30 := by norm_num [cFmod, truncQ]
    rw [h1]
    norm_num [cFmod, truncQ]
  have h0 : cFmod (cFmod 0 360 + 360) 360 = 0 := by
    have h1 : cFmod 0 360 = 0 := by norm_num [cFmod, truncQ]
    rw [h1]
    norm_num [cFmod, truncQ]
  refine ⟨?_, (c3_setAzimuth_normalizes (-30) initialSphere).2.2.2.1 Qreal.nan (by decide), ?_⟩
  · rw [(c3_setAzimuth_normalizes (-30) initialSphere).1, h330]
  · exact (c3_setAzimuth_normalizes 0 initialSphere).2.2.2.2 (by rw [h0]; rfl)

/-! ### Claims C8 and C9: maximum texture size -/

/-- C8 counterexample: on a fresh item (user limit 65536, device sentinel -1)
setMaximumTextureSize(1000) leaves the effective cap unchanged (-1 = -1) and
fires no notification, yet the stored limit silently changes from 65536 to
1000 - the state is not unchanged, refuting the claimed no-op. -/
theorem c8_counterexample :
    maximumTextureSize initialSphere = maximumTextureSize (setMaximumTextureSize 1000 initialSphere).1
    ∧ (setMaximumTextureSize 1000 initialSphere).2 = []
    ∧ initialSphere.m_maximumTextureSize = 65536
    ∧ (setMaximumTextureSize 1000 initialSphere).1.m_maximumTextureSize = 1000
    ∧ (setMaximumTextureSize 1000 initialSphere).1 ≠ initialSphere := by
  decide

/-- C8 (amended): setMaximumTextureSize(v) is a complete no-op only when v
equals the stored limit; when v differs but yields the same effective cap
(min against the cached device capability) the stored limit is still updated
to v, with no repaint and no notification; otherwise the limit is updated, the
item is marked dirty for repaint, and the notification fires. -/
theorem c8_setMaximumTextureSize_amended (v : Int) (st : QmlPhotoSphere) :
    (v = st.m_maximumTextureSize → setMaximumTextureSize v st = (st, []))
    ∧ (v ≠ st.m_maximumTextureSize →
        maximumTextureSize st = qMinInt v st.m_glMaxTexSize →
        setMaximumTextureSize v st = ({ st with m_maximumTextureSize := v }, []))
    ∧ (v ≠ st.m_maximumTextureSize →
        maximumTextureSize st ≠ qMinInt v st.m_glMaxTexSize →
        setMaximumTextureSize v st
          = (updateSphere { st with m_maximumTextureSize := v },
             [(Signal.maximumTextureSizeChanged,
               updateSphere { st with m_maximumTextureSize := v })])) := by
  refine ⟨?_, ?_, ?_⟩
  · intro h
    simp [setMaximumTextureSize, h]
  · intro h1 h2
    have h2t : maximumTextureSize st
        = maximumTextureSize { st with m_maximumTextureSize := v } := h2
    simp only [setMaximumTextureSize, if_neg h1]
    rw [if_pos h2t]
  · intro h1 h2
    have h2t : ¬ maximumTextureSize st
        = maximumTextureSize { st with m_maximumTextureSize := v } := h2
    simp only [setMaximumTextureSize, if_neg h1]
    rw [if_neg h2t]

/-- C8 witness: the three branches of the amended theorem at concrete
inputs over the fresh item. -/
theorem c8_setMaximumTextureSize_amended_witness :
    setMaximumTextureSize 65536 initialSphere = (initialSphere, [])
    ∧ setMaximumTextureSize 1000 initialSphere
        = ({ initialSphere with m_maximumTextureSize := 1000 }, [])
    ∧ setMaximumTextureSize 1000 { initialSphere with m_glMaxTexSize := 4096 }
        = (updateSphere { initialSphere with m_glMaxTexSize := 4096, m_maximumTextureSize := 1000 },
           [(Signal.maximumTextureSizeChanged,
             updateSphere
               { initialSphere with m_glMaxTexSize := 4096, m_maximumTextureSize := 1000 })]) := by
  refine ⟨(c8_setMaximumTextureSize_amended 65536 initialSphere).1 rfl,
          (c8_setMaximumTextureSize_amended 1000 initialSphere).2.1 (by decide) (by decide),
          (c8_setMaximumTextureSize_amended 1000
            { initialSphere with m_glMaxTexSize := 4096 }).2.2 (by decide) (by decide)⟩

/-- C9 counterexample: before any synchronize (device sentinel still -1), a
user-configured limit of -5 makes the getter return -5, not -1 - so the getter
does not return -1 "regardless of the user-configured limit". -/
theorem c9_counterexample :
    (setMaximumTextureSize (-5) initialSphere).1.m_glMaxTexSize = -1
    ∧ maximumTextureSize (setMaximumTextureSize (-5) initialSphere).1 = -5 := by
  decide

/-- C9 (amended): while the cached device capability is the sentinel -1, the
getter returns min(user limit, -1), hence -1 for every user limit ≥ -1
(in particular for the default 65536); once the renderer write-back stores the
queried device value d, the getter returns min(user limit, d). -/
theorem c9_sentinel_amended (st : QmlPhotoSphere) (d : Int) :
    (st.m_glMaxTexSize = -1 → -1 ≤ st.m_maximumTextureSize → maximumTextureSize st = -1)
    ∧ (st.m_glMaxTexSize = -1 → maximumTextureSize st = qMinInt st.m_maximumTextureSize (-1))
    ∧ (st.m_glMaxTexSize ≠ d →
        (updateStateWriteBack d st).1.m_glMaxTexSize = d
        ∧ maximumTextureSize (updateStateWriteBack d st).1
            = qMinInt st.m_maximumTextureSize d)
    ∧ initialSphere.m_glMaxTexSize = -1 := by
  refine ⟨?_, ?_, ?_, rfl⟩
  · intro h hle
    unfold maximumTextureSize qMinInt
    rw [h]
    split <;> omega
  · intro h
    unfold maximumTextureSize
    rw [h]
  · intro hne
    unfold updateStateWriteBack
    rw [if_pos hne]
    exact ⟨rfl, rfl⟩

/-- C9 witness: the fresh item reads back -1; after a first synchronize
against a device capability of 4096, it reads back min(65536, 4096). -/
theorem c9_sentinel_amended_witness :
    maximumTextureSize initialSphere = -1
    ∧ (updateStateWriteBack 4096 initialSphere).1.m_glMaxTexSize = 4096
    ∧ maximumTextureSize (updateStateWriteBack 4096 initialSphere).1 = qMinInt 65536 4096 := by
  have h := c9_sentinel_amended initialSphere 4096
  exact ⟨h.1 rfl (by decide), (h.2.2.1 (by decide)).1, (h.2.2.1 (by decide)).2⟩

/-! ### Claim C6: PhotoSphereRenderState equality -/

/-- QMap of cube faces to byte arrays as held by the snapshot: mapId models
the implicitly shared map data pointer (isSharedWith identity). -/
structure QMapSharedCube where
  mapId : Nat
  entries : List (CubeFace × QByteArray)
  deriving DecidableEq

/-- QMap::isSharedWith for the cube source map. -/
def cubeIsSharedWith (a b : QMapSharedCube) : Bool := decide (a.mapId = b.mapId)

/-- PhotoSphereRenderState from photosphere.cpp.  The scalar fields are
copies; source and sourceCube are implicitly shared. -/
structure PhotoSphereRenderState where
  azimuth : ℚ
  elevation : ℚ
  fov : ℚ
  viewportWidth : Int
  viewportHeight : Int
  source : QByteArray
  sourceCube : QMapSharedCube
  maxTexSize : Int
  deriving DecidableEq

/-- PhotoSphereRenderState::operator==, in the comparison order of the
source: scalars structurally, the byte buffers by shared-storage identity. -/
def renderStateEq (a o : PhotoSphereRenderState) : Bool :=
  decide (a.azimuth = o.azimuth)
  && decide (a.elevation = o.elevation)
  && decide (a.fov = o.fov)
  && decide (a.viewportHeight = o.viewportHeight)
  && decide (a.viewportWidth = o.viewportWidth)
  && isSharedWith a.source o.source
  && cubeIsSharedWith a.sourceCube o.sourceCube
  && decide (a.maxTexSize = o.maxTexSize)

/-- C6: snapshot equality is structural on azimuth, elevation, fov, viewport
size and the effective texture cap, and identity-based on the image byte
buffers: sharing the same storage (same dataId / mapId) with equal scalars
compares equal, while swapping in a freshly allocated buffer with identical
byte content compares unequal. -/
theorem c6_snapshot_equality (a o : PhotoSphereRenderState) (b : QByteArray) :
    (a.azimuth = o.azimuth → a.elevation = o.elevation → a.fov = o.fov →
     a.viewportWidth = o.viewportWidth → a.viewportHeight = o.viewportHeight →
     a.maxTexSize = o.maxTexSize →
     a.source.dataId = o.source.dataId → a.sourceCube.mapId = o.sourceCube.mapId →
     renderStateEq a o = true)
    ∧ (b.bytes = a.source.bytes → b.dataId ≠ a.source.dataId →
        renderStateEq a { a with source := b } = false) := by
  constructor
  · intro h1 h2 h3 h4 h5 h6 h7 h8
    simp [renderStateEq, isSharedWith, cubeIsSharedWith, h1, h2, h3, h4, h5, h6, h7, h8]
  · intro hb hid
    have hsw : isSharedWith a.source b = false := by
      simp only [isSharedWith, decide_eq_false_iff_not]
      exact fun he => hid he.symm
    simp [renderStateEq, hsw]

/-- A concrete snapshot for exercising the equality operator. -/
def rsA : PhotoSphereRenderState :=
  ⟨0, 0, 90, 100, 50, ⟨7, [1, 2]⟩, ⟨3, []⟩, 4096⟩

/-- C6 witness: a snapshot equals one sharing its buffers, and becomes
unequal once the source buffer is replaced by a fresh buffer with the same
bytes. -/
theorem c6_snapshot_equality_witness :
    renderStateEq rsA rsA = true
    ∧ renderStateEq rsA { rsA with source := ⟨8, [1, 2]⟩ } = false :=
  ⟨(c6_snapshot_equality rsA rsA ⟨8, [1, 2]⟩).1 rfl rfl rfl rfl rfl rfl rfl rfl,
   (c6_snapshot_equality rsA rsA ⟨8, [1, 2]⟩).2 (by decide) (by decide)⟩

/-! ### Claims C4, C5, C10: the source loaders -/

/-- A failing loadFromUrl leaves the item untouched and emits nothing. -/
lemma loadFromUrl_fail (o : Oracles) (url : String) (st : QmlPhotoSphere)
    (h : (loadFromUrl o url st).2.2 = false) :
    (loadFromUrl o url st).1 = st ∧ (loadFromUrl o url st).2.1 = [] := by
  simp only [loadFromUrl] at h ⊢
  by_cases h1 : url = ""
  · rw [if_pos h1] at h ⊢
    exact ⟨rfl, rfl⟩
  · rw [if_neg h1] at h ⊢
    by_cases h2 : url = st.m_imageUrl
    · rw [if_pos h2] at h
      simp at h
    · rw [if_neg h2] at h ⊢
      by_cases h3 : o.urlValid url = false
      · rw [if_pos h3] at h ⊢
        exact ⟨rfl, rfl⟩
      · rw [if_neg h3] at h ⊢
        cases him : o.loadImage (o.fetchUrl url) with
        | none =>
          exact ⟨rfl, rfl⟩
        | some image =>
          rw [him] at h
          dsimp only at h ⊢
          by_cases h4 : (image.isNull || image.width == 0 || image.height == 0) = true
          · rw [if_pos h4] at h ⊢
            exact ⟨rfl, rfl⟩
          · rw [if_neg h4] at h
            simp at h

/-- A successful loadFromUrl stores the url and does not touch the cube-map
fields. -/
lemma loadFromUrl_success (o : Oracles) (url : String) (st : QmlPhotoSphere)
    (h : (loadFromUrl o url st).2.2 = true) :
    (loadFromUrl o url st).1.m_imageUrl = url
    ∧ (loadFromUrl o url st).1.m_cubeMap = st.m_cubeMap
    ∧ (loadFromUrl o url st).1.m_cubeMapUrls = st.m_cubeMapUrls := by
  simp only [loadFromUrl] at h ⊢
  by_cases h1 : url = ""
  · rw [if_pos h1] at h
    simp at h
  · rw [if_neg h1] at h ⊢
    by_cases h2 : url = st.m_imageUrl
    · rw [if_pos h2] at h ⊢
      exact ⟨h2.symm, rfl, rfl⟩
    · rw [if_neg h2] at h ⊢
      by_cases h3 : o.urlValid url = false
      · rw [if_pos h3] at h
        simp at h
      · rw [if_neg h3] at h ⊢
        cases him : o.loadImage (o.fetchUrl url) with
        | none =>
          rw [him] at h
          simp at h
        | some image =>
          rw [him] at h
          dsimp only at h ⊢
          by_cases h4 : (image.isNull || image.width == 0 || image.height == 0) = true
          · rw [if_pos h4] at h
            simp at h
          · rw [if_neg h4] at h ⊢
            exact ⟨rfl, rfl, rfl⟩

/-- A failing loadFromCubeMap leaves the item untouched and emits nothing. -/
lemma loadFromCubeMap_fail (o : Oracles) (m : VariantMap) (st : QmlPhotoSphere)
    (h : (loadFromCubeMap o m st).2.2 = false) :
    (loadFromCubeMap o m st).1 = st ∧ (loadFromCubeMap o m st).2.1 = [] := by
  simp only [loadFromCubeMap] at h ⊢
  by_cases h1 : m.isEmpty = true
  · rw [if_pos h1] at h ⊢
    exact ⟨rfl, rfl⟩
  · rw [if_neg h1] at h ⊢
    by_cases h2 : st.m_cubeMapUrls = m
    · rw [if_pos h2] at h
      simp at h
    · rw [if_neg h2] at h ⊢
      by_cases h3 : checkKeys m requiredKeys = false
      · rw [if_pos h3] at h ⊢
        exact ⟨rfl, rfl⟩
      · rw [if_neg h3] at h ⊢
        by_cases h4 : checkUrls o m requiredKeys = false
        · rw [if_pos h4] at h ⊢
          exact ⟨rfl, rfl⟩
        · rw [if_neg h4] at h ⊢
          cases hf : fetchFaces o m requiredKeys [] with
          | none =>
            exact ⟨rfl, rfl⟩
          | some imgs =>
            rw [hf] at h
            simp at h

/-- "At most one source variant is populated": the single-image side or the
cube-map side is completely cleared. -/
def exclusiveVariants (st : QmlPhotoSphere) : Prop :=
  (st.m_imageUrl = "" ∧ st.m_image = QByteArray.emptyBA)
  ∨ (st.m_cubeMapUrls = [] ∧ st.m_cubeMap = [])

/-- C5: a successful single-image setSource reads back as exactly that
locator with the cube-map mappings cleared; the exclusivity invariant holds
initially and is preserved by setSource (with any argument shape) and by all
the scalar setters. -/
theorem c5_source_roundtrip_exclusive (o : Oracles) (s : String) (st : QmlPhotoSphere) :
    ((loadFromUrl o s st).2.2 = true →
      QmlPhotoSphere.source (setSource o (.str s) st).1 = SourceValue.str s
      ∧ (setSource o (.str s) st).1.m_cubeMapUrls = []
      ∧ (setSource o (.str s) st).1.m_cubeMap = [])
    ∧ exclusiveVariants initialSphere
    ∧ (∀ src : SourceArg, exclusiveVariants st → exclusiveVariants (setSource o src st).1)
    ∧ (∀ x : Qreal, exclusiveVariants st →
        exclusiveVariants (setAzimuth x st).1
        ∧ exclusiveVariants (setElevation x st).1
        ∧ exclusiveVariants (setFieldOfView x st).1)
    ∧ (∀ v : Int, exclusiveVariants st → exclusiveVariants (setMaximumTextureSize v st).1) := by
  refine ⟨?_, Or.inl ⟨rfl, rfl⟩, ?_, ?_, ?_⟩
  · intro hok
    rcases hres : loadFromUrl o s st with ⟨st1, ems, ok⟩
    rw [hres] at hok
    simp only at hok
    subst hok
    have hurl : st1.m_imageUrl = s := by
      have h2 := (loadFromUrl_success o s st (by rw [hres])).1
      rwa [hres] at h2
    refine ⟨?_, ?_, ?_⟩
    · simp only [setSource, hres]
      simp [QmlPhotoSphere.source, hurl]
    · simp only [setSource, hres]
    · simp only [setSource, hres]
  · intro src hex
    cases src with
    | str url =>
      rcases hres : loadFromUrl o url st with ⟨st1, ems, ok⟩
      cases ok with
      | true =>
        simp only [setSource, hres]
        exact Or.inr ⟨rfl, rfl⟩
      | false =>
        have hst1 : st1 = st := by
          have := (loadFromUrl_fail o url st (by rw [hres])).1
          rwa [hres] at this
        simp only [setSource, hres]
        rwa [hst1]
    | map m =>
      rcases hres : loadFromCubeMap o m st with ⟨st1, ems, ok⟩
      cases ok with
      | true =>
        simp only [setSource, hres]
        exact Or.inl ⟨rfl, rfl⟩
      | false =>
        have hst1 : st1 = st := by
          have := (loadFromCubeMap_fail o m st (by rw [hres])).1
          rwa [hres] at this
        simp only [setSource, hres]
        rwa [hst1]
    | other =>
      simpa [setSource] using hex
  · intro x hex
    refine ⟨?_, ?_, ?_⟩
    · unfold setAzimuth
      dsimp only
      split_ifs <;> exact hex
    · unfold setElevation
      dsimp only
      split_ifs <;> exact hex
    · unfold setFieldOfView
      dsimp only
      split_ifs <;> exact hex
  · intro v hex
    unfold setMaximumTextureSize
    dsimp only
    split_ifs <;> exact hex

instance (st : QmlPhotoSphere) : Decidable (exclusiveVariants st) := by
  unfold exclusiveVariants
  infer_instance

/-- Happy-path oracles for witnesses: every url is valid, each fetch yields a
buffer derived from the url, decoding always succeeds with a 2x2 image. -/
def okOracles : Oracles :=
  ⟨fun _ => true, fun u => ⟨u.length + 1, [u.length]⟩, fun _ => some ⟨false, 2, 2⟩⟩

/-- A well-formed six-entry cube-map dictionary. -/
def m6C5 : VariantMap := requiredKeys.map (fun k => (k, QVariant.vString k))

/-- C5 witness: single image, then cube map, then single image again - the
final read returns only the last single-image locator and the cube mappings
are empty; the exclusivity invariant holds along the way. -/
theorem c5_source_roundtrip_exclusive_witness :
    QmlPhotoSphere.source (setSource okOracles (.str "img1") initialSphere).1
      = SourceValue.str "img1"
    ∧ QmlPhotoSphere.source
        (setSource okOracles (.str "img2")
          (setSource okOracles (.map m6C5)
            (setSource okOracles (.str "img1") initialSphere).1).1).1
      = SourceValue.str "img2"
    ∧ (setSource okOracles (.str "img2")
        (setSource okOracles (.map m6C5)
          (setSource okOracles (.str "img1") initialSphere).1).1).1.m_cubeMapUrls = []
    ∧ (setSource okOracles (.str "img2")
        (setSource okOracles (.map m6C5)
          (setSource okOracles (.str "img1") initialSphere).1).1).1.m_cubeMap = []
    ∧ exclusiveVariants
        (setSource okOracles (.map m6C5)
          (setSource okOracles (.str "img1") initialSphere).1).1 :=
  ⟨((c5_source_roundtrip_exclusive okOracles "img1" initialSphere).1 (by decide)).1,
   ((c5_source_roundtrip_exclusive okOracles "img2"
      (setSource okOracles (.map m6C5)
        (setSource okOracles (.str "img1") initialSphere).1).1).1 (by decide)).1,
   ((c5_source_roundtrip_exclusive okOracles "img2"
      (setSource okOracles (.map m6C5)
        (setSource okOracles (.str "img1") initialSphere).1).1).1 (by decide)).2.1,
   ((c5_source_roundtrip_exclusive okOracles "img2"
      (setSource okOracles (.map m6C5)
        (setSource okOracles (.str "img1") initialSphere).1).1).1 (by decide)).2.2,
   (c5_source_roundtrip_exclusive okOracles ""
      (setSource okOracles (.str "img1") initialSphere).1).2.2.1
     (.map m6C5) (by decide)⟩

/-- The full-success branch of loadFromUrl: the url and fetched bytes are
stored, the item is marked dirty, and sourceChanged is emitted with that
intermediate state. -/
lemma loadFromUrl_full (o : Oracles) (url : String) (st : QmlPhotoSphere)
    (h1 : url ≠ "") (h2 : url ≠ st.m_imageUrl) (h3 : o.urlValid url = true)
    (img : QImage) (h4 : o.loadImage (o.fetchUrl url) = some img)
    (h5 : (img.isNull || img.width == 0 || img.height == 0) = false) :
    loadFromUrl o url st
      = (updateSphere { st with m_imageUrl := url, m_image := o.fetchUrl url },
         [(Signal.sourceChanged,
           updateSphere { st with m_imageUrl := url, m_image := o.fetchUrl url })],
         true) := by
  simp only [loadFromUrl]
  rw [if_neg h1, if_neg h2, if_neg (by simp [h3]), h4]
  dsimp only
  rw [if_neg (by simp [h5])]

/-- C10: when the current source is a cube map and setSource switches to a
valid single image, sourceChanged is emitted from inside loadFromUrl, before
setSource clears the cube-map mappings: at emission time both variants are
populated and the source getter still returns the old cube-map dictionary;
only the final state has the cube map cleared and reads back the new url. -/
theorem c10_sourceChanged_order (o : Oracles) (url : String) (st : QmlPhotoSphere)
    (hcube : st.m_cubeMapUrls ≠ [])
    (h1 : url ≠ "") (h2 : url ≠ st.m_imageUrl) (h3 : o.urlValid url = true)
    (img : QImage) (h4 : o.loadImage (o.fetchUrl url) = some img)
    (h5 : (img.isNull || img.width == 0 || img.height == 0) = false) :
    (setSource o (.str url) st).2
      = [(Signal.sourceChanged,
          updateSphere { st with m_imageUrl := url, m_image := o.fetchUrl url })]
    ∧ QmlPhotoSphere.source
        (updateSphere { st with m_imageUrl := url, m_image := o.fetchUrl url })
        = SourceValue.map st.m_cubeMapUrls
    ∧ (updateSphere { st with m_imageUrl := url, m_image := o.fetchUrl url }).m_cubeMapUrls
        = st.m_cubeMapUrls
    ∧ (updateSphere { st with m_imageUrl := url, m_image := o.fetchUrl url }).m_imageUrl = url
    ∧ (setSource o (.str url) st).1.m_cubeMapUrls = []
    ∧ (setSource o (.str url) st).1.m_cubeMap = []
    ∧ QmlPhotoSphere.source (setSource o (.str url) st).1 = SourceValue.str url := by
  have hfull := loadFromUrl_full o url st h1 h2 h3 img h4 h5
  have hie : st.m_cubeMapUrls.isEmpty = false := by
    cases hm : st.m_cubeMapUrls with
    | nil => exact absurd hm hcube
    | cons a t => rfl
  refine ⟨?_, ?_, ?_, ?_, ?_, ?_, ?_⟩
  · simp only [setSource, hfull]
  · unfold QmlPhotoSphere.source updateSphere
    dsimp only
    simp [hie]
  · rfl
  · rfl
  · simp only [setSource, hfull]
  · simp only [setSource, hfull]
  · simp only [setSource, hfull]
    simp [QmlPhotoSphere.source, updateSphere]

/-- A cube-map-populated item state for the C10 witness. -/
def stC10 : QmlPhotoSphere :=
  { initialSphere with m_cubeMapUrls := m6C5, m_cubeMap := [(CubeFace.PX, ⟨1, [2]⟩)] }

/-- C10 witness: switching the cube-map state stC10 to the single image
"img9" emits sourceChanged at a state that still reads back the cube map,
while the final state reads back the single image with the cube cleared. -/
theorem c10_sourceChanged_order_witness :
    (setSource okOracles (.str "img9") stC10).2
      = [(Signal.sourceChanged,
          updateSphere { stC10 with m_imageUrl := "img9", m_image := okOracles.fetchUrl "img9" })]
    ∧ QmlPhotoSphere.source
        (updateSphere { stC10 with m_imageUrl := "img9", m_image := okOracles.fetchUrl "img9" })
        = SourceValue.map stC10.m_cubeMapUrls
    ∧ (setSource okOracles (.str "img9") stC10).1.m_cubeMapUrls = []
    ∧ QmlPhotoSphere.source (setSource okOracles (.str "img9") stC10).1
        = SourceValue.str "img9" := by
  have h := c10_sourceChanged_order okOracles "img9" stC10 (by decide) (by decide) (by decide)
    rfl ⟨false, 2, 2⟩ rfl (by decide)
  exact ⟨h.1, h.2.1, h.2.2.2.2.1, h.2.2.2.2.2.2⟩

/-- A required key absent from the dictionary makes the first validation
loop fail. -/
lemma checkKeys_false_of_missing (m : VariantMap) (ks : List String) (k : String)
    (hk : k ∈ ks) (hc : containsKey m k = false) : checkKeys m ks = false := by
  induction ks with
  | nil => cases hk
  | cons a t ih =>
    simp only [checkKeys]
    by_cases ha : containsKey m a = false
    · rw [if_pos ha]
    · rw [if_neg ha]
      rcases List.mem_cons.1 hk with h | h
      · subst h
        exact absurd hc ha
      · by_cases hcv : canConvertString (valueOf m a) = false
        · rw [if_pos hcv]
        · rw [if_neg hcv]
          exact ih h

/-- C4 (amended): loadFromCubeMap is all-or-nothing - every failure (missing
required key, non-string value, invalid url, or any face failing
fetch/decode/emptiness) returns false and leaves both stored mappings
byte-for-byte unchanged with no emission; full success replaces both mappings
together; and the immediate no-op success happens exactly when the input
dictionary equals the stored locator dictionary as a whole. -/
theorem c4_loadFromCubeMap_amended (o : Oracles) (m : VariantMap) (st : QmlPhotoSphere) :
    ((loadFromCubeMap o m st).2.2 = false →
      (loadFromCubeMap o m st).1 = st ∧ (loadFromCubeMap o m st).2.1 = [])
    ∧ (m.isEmpty = false → st.m_cubeMapUrls = m → loadFromCubeMap o m st = (st, [], true))
    ∧ (∀ k, k ∈ requiredKeys → containsKey m k = false → st.m_cubeMapUrls ≠ m →
        loadFromCubeMap o m st = (st, [], false))
    ∧ (st.m_cubeMapUrls ≠ m → checkKeys m requiredKeys = false →
        loadFromCubeMap o m st = (st, [], false))
    ∧ (st.m_cubeMapUrls ≠ m → checkKeys m requiredKeys = true →
        checkUrls o m requiredKeys = false → loadFromCubeMap o m st = (st, [], false))
    ∧ (st.m_cubeMapUrls ≠ m → fetchFaces o m requiredKeys [] = none →
        loadFromCubeMap o m st = (st, [], false))
    ∧ (∀ imgs, st.m_cubeMapUrls ≠ m → checkKeys m requiredKeys = true →
        checkUrls o m requiredKeys = true → fetchFaces o m requiredKeys [] = some imgs →
        loadFromCubeMap o m st
          = (updateSphere { st with m_cubeMap := imgs, m_cubeMapUrls := m },
             [(Signal.sourceChanged,
               updateSphere { st with m_cubeMap := imgs, m_cubeMapUrls := m })],
             true)) := by
  have hck_empty : checkKeys ([] : VariantMap) requiredKeys = false := by
    simp [requiredKeys, checkKeys, containsKey]
  refine ⟨loadFromCubeMap_fail o m st, ?_, ?_, ?_, ?_, ?_, ?_⟩
  · intro hne hmeq
    simp only [loadFromCubeMap]
    rw [if_neg (by simp [hne]), if_pos hmeq]
  · intro k hk hc hne
    have hck := checkKeys_false_of_missing m requiredKeys k hk hc
    by_cases h1 : m.isEmpty = true
    · simp only [loadFromCubeMap]
      rw [if_pos h1]
    · simp only [loadFromCubeMap]
      rw [if_neg h1, if_neg hne, if_pos hck]
  · intro hne hck
    by_cases h1 : m.isEmpty = true
    · simp only [loadFromCubeMap]
      rw [if_pos h1]
    · simp only [loadFromCubeMap]
      rw [if_neg h1, if_neg hne, if_pos hck]
  · intro hne hck hcu
    by_cases h1 : m.isEmpty = true
    · simp only [loadFromCubeMap]
      rw [if_pos h1]
    · simp only [loadFromCubeMap]
      rw [if_neg h1, if_neg hne, if_neg (by simp [hck]), if_pos hcu]
  · intro hne hfetch
    by_cases h1 : m.isEmpty = true
    · simp only [loadFromCubeMap]
      rw [if_pos h1]
    · by_cases hck : checkKeys m requiredKeys = false
      · simp only [loadFromCubeMap]
        rw [if_neg h1, if_neg hne, if_pos hck]
      · by_cases hcu : checkUrls o m requiredKeys = false
        · simp only [loadFromCubeMap]
          rw [if_neg h1, if_neg hne, if_neg hck, if_pos hcu]
        · simp only [loadFromCubeMap]
          rw [if_neg h1, if_neg hne, if_neg hck, if_neg hcu, hfetch]
  · intro imgs hne hck hcu hfetch
    have h1 : m.isEmpty = false := by
      cases m with
      | nil => exact absurd hck (by simp [hck_empty])
      | cons a t => rfl
    simp only [loadFromCubeMap]
    rw [if_neg (by simp [h1]), if_neg hne, if_neg (by simp [hck]), if_neg (by simp [hcu]), hfetch]

/-- Do the six face locators of the input match those currently stored? -/
def sixLocatorsEq (m mstored : VariantMap) : Bool :=
  requiredKeys.all (fun k => decide (valueOf m k = valueOf mstored k))

/-- A six-entry dictionary, as stored by a previous successful load. -/
def m6C4 : VariantMap := requiredKeys.map (fun k => (k, QVariant.vString k))

/-- The same six locators plus one extra key. -/
def m7C4 : VariantMap := m6C4 ++ [("ZZZextra", QVariant.vString "zz")]

/-- Oracles whose decoder always fails (e.g. the server now returns
garbage). -/
def failOracles : Oracles := ⟨fun _ => true, fun _ => ⟨1, [0]⟩, fun _ => none⟩

/-- An item holding a previously loaded cube map. -/
def stC4 : QmlPhotoSphere :=
  { initialSphere with m_cubeMapUrls := m6C4, m_cubeMap := [(CubeFace.PX, ⟨2, [7]⟩)] }

/-- C4 counterexample: an input whose six face locators all equal the stored
ones but which adds one extra key is not the claimed immediate no-op success:
the whole-map equality test fails, the loader refetches, and (the decode now
failing) the call returns failure instead of success. -/
theorem c4_counterexample :
    sixLocatorsEq m7C4 stC4.m_cubeMapUrls = true
    ∧ (loadFromCubeMap failOracles m7C4 stC4).2.2 = false
    ∧ (loadFromCubeMap failOracles m7C4 stC4).1 = stC4 := by
  decide

/-- The six fetched byte buffers of the C4 witness run. -/
def imgs6 : List (CubeFace × QByteArray) :=
  [(CubeFace.PX, ⟨10, [9]⟩), (CubeFace.PY, ⟨10, [9]⟩), (CubeFace.PZ, ⟨10, [9]⟩),
   (CubeFace.MX, ⟨10, [9]⟩), (CubeFace.MY, ⟨10, [9]⟩), (CubeFace.MZ, ⟨10, [9]⟩)]

/-- C4 witness: a full success replaces both mappings together, and an input
equal to the stored dictionary is an immediate no-op success. -/
theorem c4_loadFromCubeMap_amended_witness :
    loadFromCubeMap okOracles m6C4 initialSphere
      = (updateSphere { initialSphere with m_cubeMap := imgs6, m_cubeMapUrls := m6C4 },
         [(Signal.sourceChanged,
           updateSphere { initialSphere with m_cubeMap := imgs6, m_cubeMapUrls := m6C4 })],
         true)
    ∧ loadFromCubeMap okOracles m6C4 stC4 = (stC4, [], true) :=
  ⟨(c4_loadFromCubeMap_amended okOracles m6C4 initialSphere).2.2.2.2.2.2 imgs6
      (by decide) (by decide) (by decide) (by decide),
   (c4_loadFromCubeMap_amended okOracles m6C4 stC4).2.1 (by decide) (by decide)⟩

/-! ### Claim C7: mesh generation (Sphere3D::generateSphere and Cube3D) -/

namespace Sphere3D

/-- The tessellation step 0.015625 = 1/64 (32 stacks, 64 sectors).  The step
is a power of two, so the C double loop `for (i = 0; i < 1.0; i += di)` is
exact: i takes precisely the values k/64 for k = 0..63 (and j the values
k/32 for k = 0..31), which the range-indexed loops below reproduce. -/
def step : ℚ := 0.015625

/-- Horizontal step di = step. -/
def di : ℚ := step

/-- Vertical step dj = step * 2. -/
def dj : ℚ := step * 2

/-- qFuzzyIsNull-based snapping of near-zero components to exact zero
(threshold 0.00001 for float components). -/
noncomputable def snapZero (x : ℝ) : ℝ := if |x| ≤ 0.00001 then 0 else x

/-- Snap all three components of a vertex. -/
noncomputable def snapV (v : ℝ × ℝ × ℝ) : ℝ × ℝ × ℝ :=
  (snapZero v.1, snapZero v.2.1, snapZero v.2.2)

/-- The six vertices (two triangles bl-tl-tr and bl-tr-br) emitted for the
cell at parameters (i, j), from the loop body of generateSphere. -/
noncomputable def cellVertices (i j : ℚ) : List (ℝ × ℝ × ℝ) :=
  let du : ℝ := (di : ℝ) * (2 * Real.pi)
  let dv : ℝ := (dj : ℝ) * Real.pi
  let u : ℝ := (i : ℝ) * (2 * Real.pi) + Real.pi / 2
  let v : ℝ := Real.pi / 2 - (j : ℝ) * Real.pi
  let bl := snapV (Real.cos u * Real.cos (v - dv), Real.sin (v - dv),
                   -(Real.sin u * Real.cos (v - dv)))
  let br := snapV (Real.cos (u + du) * Real.cos (v - dv), Real.sin (v - dv),
                   -(Real.sin (u + du) * Real.cos (v - dv)))
  let tr := snapV (Real.cos (u + du) * Real.cos v, Real.sin v,
                   -(Real.sin (u + du) * Real.cos v))
  let tl := snapV (Real.cos u * Real.cos v, Real.sin v, -(Real.sin u * Real.cos v))
  [bl, tl, tr, bl, tr, br]

/-- The six matching texture coordinates for the cell at (i, j). -/
def cellTexCoords (i j : ℚ) : List (ℚ × ℚ) :=
  let texBl := (1 - i, j + dj)
  let texBr := (1 - i - di, j + dj)
  let texTr := (1 - i - di, j)
  let texTl := (1 - i, j)
  [texBl, texTl, texTr, texBl, texTr, texBr]

/-- m_sphereVertices after generateSphere: 64 sectors x 32 stacks x 6. -/
noncomputable def m_sphereVertices : List (ℝ × ℝ × ℝ) :=
  (List.range 64).flatMap fun ik => (List.range 32).flatMap fun jk =>
    cellVertices (ik * di) (jk * dj)

/-- m_texCoords after generateSphere, in the same emission order. -/
def m_texCoords : List (ℚ × ℚ) :=
  (List.range 64).flatMap fun ik => (List.range 32).flatMap fun jk =>
    cellTexCoords (ik * di) (jk * dj)

end Sphere3D

namespace Cube3D

/-- Cube scale factor (default 1.0). -/
def m_scale : ℚ := 1

/-- The 8 corner vertices of the cube, scaled. -/
def m_cubeVertices : List (ℚ × ℚ × ℚ) :=
  [(-1 * m_scale, 1 * m_scale, 1 * m_scale),
   (-1 * m_scale, -1 * m_scale, 1 * m_scale),
   (1 * m_scale, -1 * m_scale, 1 * m_scale),
   (1 * m_scale, 1 * m_scale, 1 * m_scale),
   (-1 * m_scale, 1 * m_scale, -1 * m_scale),
   (-1 * m_scale, -1 * m_scale, -1 * m_scale),
   (1 * m_scale, -1 * m_scale, -1 * m_scale),
   (1 * m_scale, 1 * m_scale, -1 * m_scale)]

/-- The face-to-corner index table (PX, PY, PZ, MX, MY, MZ). -/
def m_indices : List Nat :=
  [3, 2, 6, 7,
   4, 0, 3, 7,
   0, 1, 2, 3,
   4, 5, 1, 0,
   1, 5, 6, 2,
   7, 6, 5, 4]

/-- The shared per-face texture quad (u inverted for the inside view). -/
def m_texCoordsFace : List (ℚ × ℚ) :=
  [(1, 0), (1, 1), (0, 1), (0, 0)]

/-- m_vertices after the constructor loop: vertex i is corner indices[i]. -/
def m_vertices : List (ℚ × ℚ × ℚ) :=
  (List.range 24).map fun i => m_cubeVertices.getD (m_indices.getD i 0) (0, 0, 0)

/-- m_texCoords after the constructor loop: uv i is face quad entry i % 4. -/
def m_texCoords : List (ℚ × ℚ) :=
  (List.range 24).map fun i => m_texCoordsFace.getD (i % 4) (0, 0)

end Cube3D

/-- Length of a flat map whose pieces all have the same length. -/
lemma length_flatMap_const {α β : Type} (l : List α) (f : α → List β) (n : ℕ)
    (h : ∀ a ∈ l, (f a).length = n) : (l.flatMap f).length = l.length * n := by
  induction l with
  | nil => simp
  | cons a t ih =>
    rw [List.flatMap_cons, List.length_append, h a (List.mem_cons_self a t),
        ih (fun b hb => h b (List.mem_cons_of_mem a hb)), List.length_cons]
    ring

/-- C7: the sphere generator at the configured tessellation (64 sectors x 32
stacks x 6 vertices per cell) emits exactly 12288 vertex positions and 12288
matching texture coordinates, and the cube holds exactly 24 vertices with 24
per-face texture coordinates. -/
theorem c7_mesh_counts :
    Sphere3D.m_sphereVertices.length = 12288
    ∧ Sphere3D.m_texCoords.length = 12288
    ∧ Cube3D.m_vertices.length = 24
    ∧ Cube3D.m_texCoords.length = 24 := by
  have hcv : ∀ i j : ℚ, (Sphere3D.cellVertices i j).length = 6 := fun i j => rfl
  have hct : ∀ i j : ℚ, (Sphere3D.cellTexCoords i j).length = 6 := fun i j => rfl
  refine ⟨?_, ?_, ?_, ?_⟩
  · unfold Sphere3D.m_sphereVertices
    have hinner : ∀ ik ∈ List.range 64,
        ((List.range 32).flatMap fun jk =>
          Sphere3D.cellVertices (ik * Sphere3D.di) (jk * Sphere3D.dj)).length = 192 := by
      intro ik _
      rw [length_flatMap_const _ _ 6 (fun jk _ => hcv _ _)]
      simp
    rw [length_flatMap_const _ _ 192 hinner]
    simp
  · unfold Sphere3D.m_texCoords
    have hinner : ∀ ik ∈ List.range 64,
        ((List.range 32).flatMap fun jk =>
          Sphere3D.cellTexCoords (ik * Sphere3D.di) (jk * Sphere3D.dj)).length = 192 := by
      intro ik _
      rw [length_flatMap_const _ _ 6 (fun jk _ => hct _ _)]
      simp
    rw [length_flatMap_const _ _ 192 hinner]
    simp
  · unfold Cube3D.m_vertices
    simp
  · unfold Cube3D.m_texCoords
    simp
